import Mathlib

/-!
A shallow embedding of `loc_counter.py`, a line-of-code counter for Python
source files.  The embedded parts are:

* the per-line classifier and counter loop of `count_lines_in_file`
  (lines 184-198 of the source),
* the comment-line collector over the token stream (lines 169-179),
* `docstring_line_numbers` (lines 116-148) over a model of the Python AST,
* the aggregator `analyze` (lines 201-219).

External collaborators (file reading, `tokenize.generate_tokens`,
`ast.parse`) are modelled as inputs: a file arrives as its split lines, the
list of tokens the tokenizer yielded before any lexical error, an error
flag, and the optional parse tree (`none` models a `SyntaxError`).
-/

/-- Python whitespace test used by `str.strip()` with no argument, for the
ASCII range: space, tab, newline, carriage return, vertical tab, form feed.
(Python also strips non-ASCII Unicode whitespace; the texts analysed here
are ASCII.) -/
def pyIsSpace (c : Char) : Bool :=
  c = ' ' || c = '\t' || c = '\n' || c = '\r' || c = '\x0b' || c = '\x0c'

/-- Embedding of Python `raw.strip()`: drop leading and trailing whitespace
characters. -/
def pyStrip (s : String) : String :=
  ⟨((s.data.dropWhile pyIsSpace).reverse.dropWhile pyIsSpace).reverse⟩

/-- The three classes a line can fall into (source lines 189-196). -/
inductive LineClass where
  | code
  | comment
  | blank
deriving DecidableEq, Repr

/-- The classification of one raw line, given its 1-based index and the two
line sets; embeds the `if`/`elif`/`else` of source lines 190-196. -/
def classify (raw : String) (idx : ℕ) (commentLines docLines : Finset ℕ) :
    LineClass :=
  let stripped := pyStrip raw
  if stripped = "" then LineClass.blank
  else if idx ∈ commentLines ∨ idx ∈ docLines then LineClass.comment
  else LineClass.code

/-- The body of the counter loop: one line bumps the counter of its own
class (the `code += 1` / `comments += 1` / `blanks += 1` of source lines
192-196) in a `(code, comments, blanks)` triple. -/
def addClass : LineClass → ℕ × ℕ × ℕ → ℕ × ℕ × ℕ
  | LineClass.code, t => (t.1 + 1, t.2.1, t.2.2)
  | LineClass.comment, t => (t.1, t.2.1 + 1, t.2.2)
  | LineClass.blank, t => (t.1, t.2.1, t.2.2 + 1)

/-- The counter loop of source lines 184-196: starting at line number `idx`,
return the `(code, comments, blanks)` tally over the remaining lines.  The
Python loop walks forward accumulating three counters; this recursion adds
each line's contribution to the tally of the lines after it, which yields
the same three sums. -/
def tallyLines (c d : Finset ℕ) : ℕ → List String → ℕ × ℕ × ℕ
  | _, [] => (0, 0, 0)
  | idx, raw :: rest =>
    addClass (classify raw idx c d) (tallyLines c d (idx + 1) rest)

/-- The per-file record returned by `count_lines_in_file`
(`(total, code, comments, blanks)` in the source). -/
structure FileStats where
  total : ℕ
  code : ℕ
  comments : ℕ
  blanks : ℕ
deriving DecidableEq, Repr

/-- The pure core of `count_lines_in_file` once the two line sets are in
hand (source lines 164-198): `total = len(lines)` and the three counters
from the classification pass, with `enumerate(lines, start=1)` numbering. -/
def countLines (lines : List String) (commentLines docLines : Finset ℕ) :
    FileStats :=
  let t := tallyLines commentLines docLines 1 lines
  { total := lines.length, code := t.1, comments := t.2.1, blanks := t.2.2 }

/-- Model of a token's type as far as the scanner looks at it:
`tokenize.COMMENT` tokens, string-literal tokens (whose text may contain a
`#` character without being a comment), and everything else. -/
inductive TokType where
  | comment (text : String)
  | str (text : String)
  | otherTok
deriving DecidableEq, Repr

/-- Whether a token type is `tokenize.COMMENT` (the `tok_type ==
tokenize.COMMENT` test of source line 173). -/
def TokType.isComment : TokType → Bool
  | TokType.comment _ => true
  | _ => false

/-- Model of one token from `tokenize.generate_tokens`: its type and the
row of its `start` position (the only fields source lines 172-175 read). -/
structure Tok where
  type : TokType
  startLine : ℕ
deriving DecidableEq, Repr

/-- The comment-collecting loop of source lines 169-175: insert the start
line of every COMMENT token.  Its input is the list of tokens the generator
yielded before any lexical error, so on an error the set holds exactly the
comment lines found up to that point (the `except: pass` of lines 176-179
keeps the set as accumulated). -/
def scanCommentLines (toks : List Tok) : Finset ℕ :=
  toks.foldl (fun s t => if t.type.isComment then insert t.startLine s else s) ∅

/-- Model of a Python expression node as far as `docstring_line_numbers`
inspects it: a string `ast.Constant` (with its `lineno`, its `end_lineno`,
and its evaluated string value), a non-string `ast.Constant`, or any other
expression.  `end_lineno` records the physical last source line of the
node; the source code never reads it, but it lets us state what the
physical span of a literal is. -/
inductive PyExprNode where
  | constantStr (lineno end_lineno : ℕ) (value : String)
  | constantOther (lineno end_lineno : ℕ)
  | otherExpr (lineno end_lineno : ℕ)

/-- Model of a Python statement as far as the AST walk of source lines
134-141 needs: an `ast.Expr` statement, the three definition kinds that
carry a docstring-bearing `body`, and any other statement (whose nested
statement lists may still contain definitions, as with `if`/`try`/`with`
blocks). -/
inductive PyStmt where
  | exprStmt (value : PyExprNode)
  | functionDef (body : List PyStmt)
  | asyncFunctionDef (body : List PyStmt)
  | classDef (body : List PyStmt)
  | otherStmt (children : List PyStmt)

/-- Model of `ast.Module`: the top-level statement list. -/
structure PyModule where
  body : List PyStmt

mutual

/-- The bodies of all `FunctionDef`/`AsyncFunctionDef`/`ClassDef` nodes
reachable from one statement, as `ast.walk` would visit them (source line
134-135 walks every node and keeps the kinds that can carry a
docstring). -/
def stmtDefBodies : PyStmt → List (List PyStmt)
  | PyStmt.exprStmt _ => []
  | PyStmt.functionDef b => b :: listDefBodies b
  | PyStmt.asyncFunctionDef b => b :: listDefBodies b
  | PyStmt.classDef b => b :: listDefBodies b
  | PyStmt.otherStmt cs => listDefBodies cs

/-- `stmtDefBodies` over a statement list. -/
def listDefBodies : List PyStmt → List (List PyStmt)
  | [] => []
  | s :: rest => stmtDefBodies s ++ listDefBodies rest

end

/-- The bodies `ast.walk` finds whose first statement is checked for a
docstring: the module's own body plus every definition body below it. -/
def allBodies (t : PyModule) : List (List PyStmt) :=
  t.body :: listDefBodies t.body

/-- Python `value.count('\n')`: the number of newline characters embedded
in the literal's evaluated string value (source line 145). -/
def countNewlines (s : String) : ℕ :=
  s.data.count '\n'

/-- The docstring lines one body contributes (source lines 136-147):
nothing when the body is empty or its first statement is not an `ast.Expr`
holding a string `ast.Constant`; otherwise the lines
`range(start, start + span)` with `span = value.count('\n') + 1`. -/
def docLinesOfBody : List PyStmt → Finset ℕ
  | PyStmt.exprStmt (PyExprNode.constantStr lineno _ v) :: _ =>
    (List.range' lineno (countNewlines v + 1)).toFinset
  | _ => ∅

/-- Union of a list of line sets; the Python loop grows one `doc_lines`
set across the walk, which accumulates exactly this union. -/
def unionAll : List (Finset ℕ) → Finset ℕ
  | [] => ∅
  | s :: rest => s ∪ unionAll rest

/-- Embedding of `docstring_line_numbers` (source lines 116-148).  The
argument is the outcome of `ast.parse`: `none` models the `except` branch
of lines 128-131 (a `SyntaxError`), which returns the empty set. -/
def docstring_line_numbers : Option PyModule → Finset ℕ
  | none => ∅
  | some t => unionAll ((allBodies t).map docLinesOfBody)

/-- What `count_lines_in_file` receives for one file from its external
collaborators once the file was read successfully: the split source lines,
the tokens `tokenize.generate_tokens` yielded before any lexical error,
whether such an error occurred (the `except` of source lines 176-179), and
the `ast.parse` outcome. -/
structure FileInput where
  lines : List String
  toks : List Tok
  tokError : Bool
  parsed : Option PyModule

/-- Embedding of `count_lines_in_file` (source lines 151-198) after the
file read: scan the token stream for comment lines, extract docstring
lines, then classify and count every line. -/
def count_lines_in_file (fi : FileInput) : FileStats :=
  countLines fi.lines (scanCommentLines fi.toks) (docstring_line_numbers fi.parsed)

/-- The aggregate record `agg` of source line 205. -/
structure AggStats where
  files : ℕ
  total : ℕ
  code : ℕ
  comments : ℕ
  blanks : ℕ
deriving DecidableEq, Repr

/-- Embedding of `analyze` (source lines 201-219) over the sorted file
list.  Each path is paired with `none` when `count_lines_in_file` raised on
it (unreadable or undecodable file: the `except ... continue` of lines
210-212) and with its `FileInput` otherwise.  The Python `results` dict is
modelled as an association list in insertion order; `find_py_files` never
yields the same path twice, so dict insertion and list append agree.  The
Python loop accumulates `agg` forward; this recursion sums the same
contributions. -/
def analyze : List (String × Option FileInput) → List (String × FileStats) × AggStats
  | [] => ([], ⟨0, 0, 0, 0, 0⟩)
  | (_, none) :: rest => analyze rest
  | (p, some fi) :: rest =>
    let st := count_lines_in_file fi
    let r := analyze rest
    ((p, st) :: r.1,
     ⟨r.2.files + 1, r.2.total + st.total, r.2.code + st.code,
      r.2.comments + st.comments, r.2.blanks + st.blanks⟩)

/-- Scenario A's file: the single line `# hello`.  The tokenizer yields a
COMMENT token on line 1 (plus NL/ENDMARKER tokens the scanner ignores,
elided here) and `ast.parse` yields a module with empty body. -/
def fiA : FileInput :=
  { lines := ["# hello"]
    toks := [⟨TokType.comment "# hello", 1⟩]
    tokError := false
    parsed := some ⟨[]⟩ }

/-- Scenario D's input: file 1 is Scenario A, file 2 raised on reading
(permission denied), modelled by `none`. -/
def scenarioD : List (String × Option FileInput) :=
  [("f1.py", some fiA), ("f2.py", none)]

/-- The token stream `tokenize` yields for the line `x = "a#b"`: a NAME, an
OP and a STRING token — the `#` sits inside the STRING token's text, so no
COMMENT token exists. -/
def scenarioEToks : List Tok :=
  [⟨TokType.otherTok, 1⟩, ⟨TokType.otherTok, 1⟩, ⟨TokType.str "\"a#b\"", 1⟩]

/-- A file whose text does not parse (`parsed = none` models the
`SyntaxError`), while the tokenizer still found a COMMENT on line 2. -/
def fiBad : FileInput :=
  { lines := ["x = 1", "# c"]
    toks := [⟨TokType.otherTok, 1⟩, ⟨TokType.comment "# c", 2⟩]
    tokError := false
    parsed := none }

/-- Tokens yielded before a lexical error on line 2: a COMMENT on line 1
was collected, then the generator raised. -/
def lexToks : List Tok :=
  [⟨TokType.comment "# x", 1⟩, ⟨TokType.otherTok, 2⟩]

/-- The parse of the one-line module whose whole source is the literal
`"a\nb"` written with a backslash-n escape: CPython's `ast.parse` gives an
`Expr` whose `Constant` has `lineno = 1`, `end_lineno = 1` (the literal
physically occupies a single source line) while its evaluated value
carries one real newline character. -/
def escapedNewlineMod : PyModule :=
  ⟨[PyStmt.exprStmt (PyExprNode.constantStr 1 1 "a\nb")]⟩

/-- The three counters of the tally always sum to the number of lines
tallied. -/
theorem tallyLines_sum (c d : Finset ℕ) :
    ∀ (idx : ℕ) (l : List String),
      (tallyLines c d idx l).1 + (tallyLines c d idx l).2.1 +
        (tallyLines c d idx l).2.2 = l.length := by
  intro idx l
  induction l generalizing idx with
  | nil => simp [tallyLines]
  | cons raw rest ih =>
    have h := ih (idx + 1)
    cases hc : classify raw idx c d <;>
      simp only [tallyLines, hc, addClass, List.length_cons] <;> omega

/-- `raw.strip()` is empty exactly when every character of `raw` is
whitespace. -/
theorem pyStrip_eq_empty_iff (s : String) :
    pyStrip s = "" ↔ ∀ ch ∈ s.data, pyIsSpace ch := by
  have hempty : ("" : String).data = [] := rfl
  rw [pyStrip, String.ext_iff, hempty, List.reverse_eq_nil_iff,
    List.dropWhile_eq_nil_iff]
  constructor
  · intro h ch hch
    rw [← List.takeWhile_append_dropWhile pyIsSpace s.data] at hch
    rcases List.mem_append.1 hch with h1 | h2
    · exact List.mem_takeWhile_imp h1
    · exact h ch (List.mem_reverse.2 h2)
  · intro h ch hch
    exact h ch ((List.dropWhile_sublist pyIsSpace).mem (List.mem_reverse.1 hch))

/-- Membership in the comment-line fold, generalised over the accumulator. -/
theorem mem_scan_foldl (toks : List Tok) (acc : Finset ℕ) (i : ℕ) :
    (i ∈ toks.foldl
        (fun s t => if t.type.isComment then insert t.startLine s else s) acc) ↔
      i ∈ acc ∨ ∃ t ∈ toks, t.type.isComment = true ∧ t.startLine = i := by
  induction toks generalizing acc with
  | nil => simp
  | cons t rest ih =>
    simp only [List.foldl_cons]
    by_cases h : t.type.isComment = true
    · rw [if_pos h, ih]
      simp only [Finset.mem_insert, List.mem_cons]
      constructor
      · rintro ((rfl | hm) | hr)
        · exact Or.inr ⟨t, Or.inl rfl, h, rfl⟩
        · exact Or.inl hm
        · rcases hr with ⟨u, hu, hc, hl⟩
          exact Or.inr ⟨u, Or.inr hu, hc, hl⟩
      · rintro (hm | ⟨u, (rfl | hu), hc, hl⟩)
        · exact Or.inl (Or.inr hm)
        · exact Or.inl (Or.inl hl.symm)
        · exact Or.inr ⟨u, hu, hc, hl⟩
    · rw [if_neg h, ih]
      simp only [List.mem_cons]
      constructor
      · rintro (hm | ⟨u, hu, hc, hl⟩)
        · exact Or.inl hm
        · exact Or.inr ⟨u, Or.inr hu, hc, hl⟩
      · rintro (hm | ⟨u, (rfl | hu), hc, hl⟩)
        · exact Or.inl hm
        · exact absurd hc h
        · exact Or.inr ⟨u, hu, hc, hl⟩

/-- A line is in the scanner's output exactly when some COMMENT token
starts on it. -/
theorem mem_scanCommentLines (toks : List Tok) (i : ℕ) :
    i ∈ scanCommentLines toks ↔
      ∃ t ∈ toks, t.type.isComment = true ∧ t.startLine = i := by
  rw [scanCommentLines, mem_scan_foldl]
  simp

/-- Membership in the union of a list of line sets. -/
theorem mem_unionAll (l : List (Finset ℕ)) (i : ℕ) :
    i ∈ unionAll l ↔ ∃ s ∈ l, i ∈ s := by
  induction l with
  | nil => simp [unionAll]
  | cons s rest ih => simp [unionAll, Finset.mem_union, ih]

/-- Membership in one body's docstring contribution: the body must open
with a bare string constant, and the line must fall in
`[start, start + newline count]`. -/
theorem mem_docLinesOfBody (b : List PyStmt) (i : ℕ) :
    i ∈ docLinesOfBody b ↔
      ∃ s e v rest,
        b = PyStmt.exprStmt (PyExprNode.constantStr s e v) :: rest ∧
        s ≤ i ∧ i ≤ s + countNewlines v := by
  match b with
  | [] => simp [docLinesOfBody]
  | PyStmt.exprStmt (PyExprNode.constantStr s e v) :: rest =>
    simp only [docLinesOfBody, List.mem_toFinset, List.mem_range'_1,
      List.cons.injEq, PyStmt.exprStmt.injEq, PyExprNode.constantStr.injEq]
    constructor
    · rintro ⟨h1, h2⟩
      exact ⟨s, e, v, rest, ⟨⟨rfl, rfl, rfl⟩, rfl⟩, h1, by omega⟩
    · rintro ⟨s', e', v', rest', ⟨⟨rfl, rfl, rfl⟩, rfl⟩, h1, h2⟩
      exact ⟨h1, by omega⟩
  | PyStmt.exprStmt (PyExprNode.constantOther a b') :: rest =>
    simp [docLinesOfBody]
  | PyStmt.exprStmt (PyExprNode.otherExpr a b') :: rest =>
    simp [docLinesOfBody]
  | PyStmt.functionDef b' :: rest => simp [docLinesOfBody]
  | PyStmt.asyncFunctionDef b' :: rest => simp [docLinesOfBody]
  | PyStmt.classDef b' :: rest => simp [docLinesOfBody]
  | PyStmt.otherStmt b' :: rest => simp [docLinesOfBody]

/-- Membership in the extractor's result on a successful parse: some
walked body opens with a bare string constant spanning the line. -/
theorem mem_docstring_line_numbers (t : PyModule) (i : ℕ) :
    i ∈ docstring_line_numbers (some t) ↔
      ∃ b ∈ allBodies t, ∃ s e v rest,
        b = PyStmt.exprStmt (PyExprNode.constantStr s e v) :: rest ∧
        s ≤ i ∧ i ≤ s + countNewlines v := by
  rw [docstring_line_numbers, mem_unionAll]
  constructor
  · rintro ⟨fs, hfs, hi⟩
    rcases List.mem_map.1 hfs with ⟨b, hb, rfl⟩
    exact ⟨b, hb, (mem_docLinesOfBody b i).1 hi⟩
  · rintro ⟨b, hb, hspan⟩
    exact ⟨docLinesOfBody b, List.mem_map.2 ⟨b, hb, rfl⟩,
      (mem_docLinesOfBody b i).2 hspan⟩

/-- The classifier consults the line sets only at the line's own index. -/
theorem classify_congr (raw : String) (idx : ℕ) (c c' d d' : Finset ℕ)
    (hc : idx ∈ c ↔ idx ∈ c') (hd : idx ∈ d ↔ idx ∈ d') :
    classify raw idx c d = classify raw idx c' d' := by
  unfold classify
  by_cases hb : pyStrip raw = ""
  · simp [hb]
  · have : (idx ∈ c ∨ idx ∈ d) ↔ (idx ∈ c' ∨ idx ∈ d') := or_congr hc hd
    simp [hb, this]

/-- The tally consults the line sets only at indices in
`[idx, idx + length)`. -/
theorem tallyLines_congr (c c' d d' : Finset ℕ) :
    ∀ (idx : ℕ) (l : List String),
      (∀ i, idx ≤ i → i < idx + l.length →
        ((i ∈ c ↔ i ∈ c') ∧ (i ∈ d ↔ i ∈ d'))) →
      tallyLines c d idx l = tallyLines c' d' idx l := by
  intro idx l
  induction l generalizing idx with
  | nil => intro _; rfl
  | cons raw rest ih =>
    intro h
    have hidx := h idx le_rfl (by simp only [List.length_cons]; omega)
    have h' : ∀ i, idx + 1 ≤ i → i < (idx + 1) + rest.length →
        ((i ∈ c ↔ i ∈ c') ∧ (i ∈ d ↔ i ∈ d')) := by
      intro i h1 h2
      exact h i (by omega) (by simp only [List.length_cons]; omega)
    simp only [tallyLines]
    rw [classify_congr raw idx c c' d d' hidx.1 hidx.2, ih (idx + 1) h']

/-- The per-file list `results` is the per-file count over exactly the
readable files, in order. -/
theorem analyze_perFile_eq (inputs : List (String × Option FileInput)) :
    (analyze inputs).1 =
      inputs.filterMap
        (fun pr => pr.2.map (fun fi => (pr.1, count_lines_in_file fi))) := by
  induction inputs with
  | nil => rfl
  | cons pr rest ih =>
    obtain ⟨p, fi⟩ := pr
    cases fi with
    | none => simpa [analyze] using ih
    | some fi => simpa [analyze] using ih

/-- Dropping the unreadable files from the input leaves `analyze`
unchanged: a skipped file contributes to neither the per-file map nor the
aggregate. -/
theorem analyze_filter_eq (inputs : List (String × Option FileInput)) :
    analyze inputs = analyze (inputs.filter (fun pr => pr.2.isSome)) := by
  induction inputs with
  | nil => rfl
  | cons pr rest ih =>
    obtain ⟨p, fi⟩ := pr
    cases fi with
    | none => simpa [analyze, List.filter_cons] using ih
    | some fi =>
      simp only [List.filter_cons, Option.isSome_some, if_pos, analyze, ih]

/-- Every aggregate field is the sum of that field over the per-file list,
and `files` is the number of per-file entries. -/
theorem analyze_agg_sums (inputs : List (String × Option FileInput)) :
    (analyze inputs).2.files = (analyze inputs).1.length ∧
    (analyze inputs).2.total =
      ((analyze inputs).1.map (fun pr => pr.2.total)).sum ∧
    (analyze inputs).2.code =
      ((analyze inputs).1.map (fun pr => pr.2.code)).sum ∧
    (analyze inputs).2.comments =
      ((analyze inputs).1.map (fun pr => pr.2.comments)).sum ∧
    (analyze inputs).2.blanks =
      ((analyze inputs).1.map (fun pr => pr.2.blanks)).sum := by
  induction inputs with
  | nil => simp [analyze]
  | cons pr rest ih =>
    obtain ⟨p, fi⟩ := pr
    cases fi with
    | none => simpa [analyze] using ih
    | some fi =>
      obtain ⟨h1, h2, h3, h4, h5⟩ := ih
      refine ⟨?_, ?_, ?_, ?_, ?_⟩ <;>
        simp [analyze, h1, h2, h3, h4, h5] <;> omega

/-- The four counters of `countLines` partition the total. -/
theorem countLines_partition (lines : List String) (c d : Finset ℕ) :
    (countLines lines c d).total =
      (countLines lines c d).code + (countLines lines c d).comments +
        (countLines lines c d).blanks := by
  have h := tallyLines_sum c d 1 lines
  simp only [countLines]
  omega

/-- C1: every `FileStats` the analysis emits — both the direct result of
`count_lines_in_file` and every entry of the per-file map `analyze`
returns — satisfies `total = code + comments + blanks`, and all four
fields are non-negative integers (naturals). -/
theorem c1_filestats_partition :
    (∀ fi : FileInput,
      (count_lines_in_file fi).total =
        (count_lines_in_file fi).code + (count_lines_in_file fi).comments +
          (count_lines_in_file fi).blanks) ∧
    (∀ (inputs : List (String × Option FileInput)) (p : String)
        (st : FileStats), (p, st) ∈ (analyze inputs).1 →
      st.total = st.code + st.comments + st.blanks ∧
        0 ≤ st.total ∧ 0 ≤ st.code ∧ 0 ≤ st.comments ∧ 0 ≤ st.blanks) := by
  constructor
  · intro fi
    exact countLines_partition fi.lines (scanCommentLines fi.toks)
      (docstring_line_numbers fi.parsed)
  · intro inputs p st hmem
    rw [analyze_perFile_eq] at hmem
    rcases List.mem_filterMap.1 hmem with ⟨⟨q, ofi⟩, _, heq⟩
    cases ofi with
    | none => simp at heq
    | some fi =>
      simp only [Option.map_some, Option.some.injEq, Prod.mk.injEq] at heq
      obtain ⟨_, rfl⟩ := heq
      exact ⟨countLines_partition fi.lines (scanCommentLines fi.toks)
        (docstring_line_numbers fi.parsed),
        Nat.zero_le _, Nat.zero_le _, Nat.zero_le _, Nat.zero_le _⟩

/-- Witness for C1 at Scenario D's per-file entry. -/
theorem c1_filestats_partition_witness :
    (⟨1, 0, 1, 0⟩ : FileStats).total =
      (⟨1, 0, 1, 0⟩ : FileStats).code +
        (⟨1, 0, 1, 0⟩ : FileStats).comments +
        (⟨1, 0, 1, 0⟩ : FileStats).blanks ∧
      0 ≤ (⟨1, 0, 1, 0⟩ : FileStats).total ∧
      0 ≤ (⟨1, 0, 1, 0⟩ : FileStats).code ∧
      0 ≤ (⟨1, 0, 1, 0⟩ : FileStats).comments ∧
      0 ≤ (⟨1, 0, 1, 0⟩ : FileStats).blanks :=
  c1_filestats_partition.2 scenarioD "f1.py" ⟨1, 0, 1, 0⟩ (by decide)

/-- C2: the classifier assigns each line exactly one class with blank
first (a stripped-empty line is blank even when its number sits in a line
set), then comment on membership in either line set, else code. -/
theorem c2_classifier_precedence (raw : String) (idx : ℕ)
    (c d : Finset ℕ) :
    (pyStrip raw = "" → classify raw idx c d = LineClass.blank) ∧
    (pyStrip raw ≠ "" → (idx ∈ c ∨ idx ∈ d) →
      classify raw idx c d = LineClass.comment) ∧
    (pyStrip raw ≠ "" → ¬(idx ∈ c ∨ idx ∈ d) →
      classify raw idx c d = LineClass.code) ∧
    ((∀ ch ∈ raw.data, pyIsSpace ch) →
      classify raw idx c d = LineClass.blank) := by
  refine ⟨fun h => ?_, fun h hm => ?_, fun h hm => ?_, fun h => ?_⟩
  · simp [classify, h]
  · simp [classify, h, hm]
  · simp [classify, h, hm]
  · simp [classify, (pyStrip_eq_empty_iff raw).2 h]

/-- Witness for C2: a whitespace-only line whose number is in both line
sets still classifies blank. -/
theorem c2_classifier_precedence_witness :
    classify "   " 1 {1} {1} = LineClass.blank :=
  (c2_classifier_precedence "   " 1 {1} {1}).2.2.2 (by decide)

/-- C3: each aggregate field equals the sum of that field over the
per-file entries, and `files` equals the number of per-file entries. -/
theorem c3_aggregate_is_sum (inputs : List (String × Option FileInput)) :
    (analyze inputs).2.files = (analyze inputs).1.length ∧
    (analyze inputs).2.total =
      ((analyze inputs).1.map (fun pr => pr.2.total)).sum ∧
    (analyze inputs).2.code =
      ((analyze inputs).1.map (fun pr => pr.2.code)).sum ∧
    (analyze inputs).2.comments =
      ((analyze inputs).1.map (fun pr => pr.2.comments)).sum ∧
    (analyze inputs).2.blanks =
      ((analyze inputs).1.map (fun pr => pr.2.blanks)).sum :=
  analyze_agg_sums inputs

/-- C4: a line is a documentation line exactly when some walked body opens
with a bare string constant whose marked interval
`[start, start + newline count of the value]` contains it (span =
1 + embedded newlines); empty bodies and bodies not opening with a bare
string constant contribute nothing. -/
theorem c4_docstring_spans (t : PyModule) (i : ℕ) :
    (i ∈ docstring_line_numbers (some t) ↔
      ∃ b ∈ allBodies t, ∃ s e v rest,
        b = PyStmt.exprStmt (PyExprNode.constantStr s e v) :: rest ∧
        s ≤ i ∧ i ≤ s + countNewlines v) ∧
    docLinesOfBody [] = ∅ ∧
    (∀ (first : PyStmt) (rest : List PyStmt),
      (∀ s e v, first ≠ PyStmt.exprStmt (PyExprNode.constantStr s e v)) →
      docLinesOfBody (first :: rest) = ∅) := by
  refine ⟨mem_docstring_line_numbers t i, rfl, ?_⟩
  intro first rest h
  cases first with
  | exprStmt val =>
    cases val with
    | constantStr s e v => exact absurd rfl (h s e v)
    | constantOther a b => rfl
    | otherExpr a b => rfl
  | functionDef b => rfl
  | asyncFunctionDef b => rfl
  | classDef b => rfl
  | otherStmt b => rfl

/-- Witness for C4: a body opening with a non-definition statement
contributes no documentation lines. -/
theorem c4_docstring_spans_witness :
    docLinesOfBody
      [PyStmt.otherStmt [], PyStmt.exprStmt (PyExprNode.constantStr 1 1 "x")] =
      ∅ :=
  (c4_docstring_spans ⟨[]⟩ 0).2.2 (PyStmt.otherStmt [])
    [PyStmt.exprStmt (PyExprNode.constantStr 1 1 "x")]
    (fun _ _ _ h => PyStmt.noConfusion h)

/-- C5: a file whose read raised is omitted from the per-file map and
contributes to no aggregate field, and the remaining files are processed;
concretely, Scenario D (file 1 holds one comment line, file 2 unreadable)
yields one analysed file with aggregate `{1, 1, 0, 1, 0}`. -/
theorem c5_unreadable_skipped (inputs : List (String × Option FileInput)) :
    (analyze inputs).1 =
      inputs.filterMap
        (fun pr => pr.2.map (fun fi => (pr.1, count_lines_in_file fi))) ∧
    analyze inputs = analyze (inputs.filter (fun pr => pr.2.isSome)) ∧
    analyze scenarioD = ([("f1.py", ⟨1, 0, 1, 0⟩)], ⟨1, 1, 0, 1, 0⟩) :=
  ⟨analyze_perFile_eq inputs, analyze_filter_eq inputs, by decide⟩

/-- C6: on a parse failure the extractor returns the empty line set, and
the file's counts are computed with the lexical comment scan intact and an
empty documentation set. -/
theorem c6_parse_failure_independent (fi : FileInput)
    (h : fi.parsed = none) :
    docstring_line_numbers fi.parsed = (∅ : Finset ℕ) ∧
    count_lines_in_file fi =
      countLines fi.lines (scanCommentLines fi.toks) ∅ := by
  constructor
  · rw [h]
    rfl
  · simp only [count_lines_in_file, h, docstring_line_numbers]

/-- Witness for C6 on a file with a comment on line 2 and unparsable
text. -/
theorem c6_parse_failure_independent_witness :
    docstring_line_numbers fiBad.parsed = (∅ : Finset ℕ) ∧
    count_lines_in_file fiBad =
      countLines fiBad.lines (scanCommentLines fiBad.toks) ∅ :=
  c6_parse_failure_independent fiBad rfl

/-- C7: the scanner's output is exactly the start lines of the COMMENT
tokens the tokenizer yielded before any error, the per-file count uses
that set whatever the error flag says (the analysis never fails on a
lexical error), and no detected comment line lies past the error point. -/
theorem c7_lex_error_recovery (toks : List Tok) (i : ℕ) :
    (i ∈ scanCommentLines toks ↔
      ∃ t ∈ toks, t.type.isComment = true ∧ t.startLine = i) ∧
    (∀ (lines : List String) (b : Bool) (parsed : Option PyModule),
      count_lines_in_file ⟨lines, toks, b, parsed⟩ =
        countLines lines (scanCommentLines toks)
          (docstring_line_numbers parsed)) ∧
    (∀ errLine : ℕ, (∀ t ∈ toks, t.startLine ≤ errLine) →
      i ∈ scanCommentLines toks → i ≤ errLine) := by
  refine ⟨mem_scanCommentLines toks i, fun _ _ _ => rfl, ?_⟩
  intro errLine hL hi
  rcases (mem_scanCommentLines toks i).1 hi with ⟨t, ht, _, rfl⟩
  exact hL t ht

/-- Witness for C7: with a COMMENT collected on line 1 before an error on
line 2, the detected comment line stays at or before the error point. -/
theorem c7_lex_error_recovery_witness : (1 : ℕ) ≤ 2 :=
  (c7_lex_error_recovery lexToks 1).2.2 2 (by decide) (by decide)

/-- C8: a non-blank line with no COMMENT token starting on it and outside
the documentation set classifies as code — so a `#` inside a STRING
token's text is never a comment start; concretely the line `x = "a#b"`,
whose STRING token carries the `#`, classifies as code. -/
theorem c8_marker_inside_string (raw : String) (idx : ℕ) (toks : List Tok)
    (d : Finset ℕ) :
    (pyStrip raw ≠ "" →
      (∀ t ∈ toks, t.type.isComment = true → t.startLine ≠ idx) →
      idx ∉ d →
      classify raw idx (scanCommentLines toks) d = LineClass.code) ∧
    ((TokType.str "\"a#b\"").isComment = false ∧
      '#' ∈ "x = \"a#b\"".data ∧
      classify "x = \"a#b\"" 1 (scanCommentLines scenarioEToks) ∅ =
        LineClass.code) := by
  constructor
  · intro hb hc hd
    have hns : idx ∉ scanCommentLines toks := by
      intro hmem
      rcases (mem_scanCommentLines toks idx).1 hmem with ⟨t, ht, hcm, hl⟩
      exact hc t ht hcm hl
    simp [classify, hb, hns, hd]
  · exact ⟨rfl, by decide, by decide⟩

/-- Witness for C8 at a concrete non-comment line. -/
theorem c8_marker_inside_string_witness :
    classify "y = 1" 1 (scanCommentLines scenarioEToks) ∅ = LineClass.code :=
  (c8_marker_inside_string "y = 1" 1 scenarioEToks ∅).1 (by decide)
    (by decide) (by decide)

/-- C9 fails as stated: for the one-line source consisting of the literal
`"a\nb"` (backslash-n escape), the literal physically spans only source
line 1 (`end_lineno = 1`), yet the extractor marks `{1, 2}` because the
span is computed from the newline embedded in the evaluated value. -/
theorem c9_counterexample :
    docstring_line_numbers (some escapedNewlineMod) = ({1, 2} : Finset ℕ) ∧
    docstring_line_numbers (some escapedNewlineMod) ≠ Finset.Icc 1 1 := by
  decide

/-- C9 amended: the marked set for a docstring is
`[start, start + newline count of the evaluated value]`, which equals the
physical span `[lineno, end_lineno]` exactly when the value's newline
count matches `end_lineno - lineno`. -/
theorem c9_amended_span (s e : ℕ) (v : String) (rest : List PyStmt) :
    docLinesOfBody (PyStmt.exprStmt (PyExprNode.constantStr s e v) :: rest) =
      Finset.Icc s (s + countNewlines v) ∧
    (e = s + countNewlines v →
      docLinesOfBody
          (PyStmt.exprStmt (PyExprNode.constantStr s e v) :: rest) =
        Finset.Icc s e) := by
  have h : docLinesOfBody
      (PyStmt.exprStmt (PyExprNode.constantStr s e v) :: rest) =
      Finset.Icc s (s + countNewlines v) := by
    ext i
    simp only [docLinesOfBody, List.mem_toFinset, List.mem_range'_1,
      Finset.mem_Icc]
    omega
  exact ⟨h, fun he => he ▸ h⟩

/-- Witness for the amended C9 on a genuine three-line docstring. -/
theorem c9_amended_span_witness :
    docLinesOfBody [PyStmt.exprStmt (PyExprNode.constantStr 1 3 "a\n\nb")] =
      Finset.Icc 1 3 :=
  (c9_amended_span 1 3 "a\n\nb" []).2 (by decide)

/-- C10: the per-file counts depend only on the line sets' members within
`[1, number of lines]`: any two pairs of sets agreeing there give equal
`FileStats`. -/
theorem c10_out_of_range_irrelevant (lines : List String)
    (c c' d d' : Finset ℕ)
    (hc : ∀ i, 1 ≤ i → i ≤ lines.length → (i ∈ c ↔ i ∈ c'))
    (hd : ∀ i, 1 ≤ i → i ≤ lines.length → (i ∈ d ↔ i ∈ d')) :
    countLines lines c d = countLines lines c' d' := by
  have h := tallyLines_congr c c' d d' 1 lines
    (fun i h1 h2 => ⟨hc i h1 (by omega), hd i h1 (by omega)⟩)
  simp only [countLines, h]

/-- Witness for C10: adding the out-of-range members 5 and 99 changes
nothing for a one-line file. -/
theorem c10_out_of_range_irrelevant_witness :
    countLines ["x"] {1} ∅ = countLines ["x"] {1, 5} {99} :=
  c10_out_of_range_irrelevant ["x"] {1} {1, 5} ∅ {99}
    (fun i h1 h2 => by
      have hi : i = 1 := le_antisymm h2 h1
      subst hi
      decide)
    (fun i h1 h2 => by
      have hi : i = 1 := le_antisymm h2 h1
      subst hi
      decide)
